import Mathlib

/-!
Verification of a FastAPI + Azure AD single-tenant auth demo service.

The repository wires configuration values into an external OAuth2/OIDC
bearer-token validator and two trivial HTTP handlers.  The shallow embedding
below translates the repository's own code (`config.py`, `main.py`,
`auth/azure_auth.py`, `routers/public.py`, `routers/protected.py`) into Lean
definitions.  Behaviour supplied by external libraries (the FastAPI routing
layer, the `fastapi_azure_auth` token validator, the Starlette CORS
middleware, and `pydantic_settings` environment loading) is not part of the
repository's sources; those parts are modelled from the specification and
each such definition is marked `Modelled from the spec:` in its doc comment.
-/

namespace FastApiAzure

/-- Embeds `Settings` from `config.py`: five configured fields with their
source defaults (`BACKEND_CORS_ORIGINS = ["http://localhost:8000"]`,
`SCOPE_DESCRIPTION = "user_impersonation"`, the three IDs empty). -/
structure Settings where
  BACKEND_CORS_ORIGINS : List String := ["http://localhost:8000"]
  OPENAPI_CLIENT_ID : String := ""
  APP_CLIENT_ID : String := ""
  TENANT_ID : String := ""
  SCOPE_DESCRIPTION : String := "user_impersonation"
deriving Repr, DecidableEq

/-- Embeds the computed field `SCOPE_NAME` from `config.py`:
`f"api://{self.APP_CLIENT_ID}/{self.SCOPE_DESCRIPTION}"`. -/
def Settings.SCOPE_NAME (s : Settings) : String :=
  "api://" ++ s.APP_CLIENT_ID ++ "/" ++ s.SCOPE_DESCRIPTION

/-- Embeds the computed field `SCOPES` from `config.py`:
`{self.SCOPE_NAME: self.SCOPE_DESCRIPTION}`, a dict with one entry,
rendered as an association list. -/
def Settings.SCOPES (s : Settings) : List (String × String) :=
  [(s.SCOPE_NAME, s.SCOPE_DESCRIPTION)]

/-- The environment (process environment merged with the optional `.env`
file): for each configuration name, either a supplied value or absent. -/
structure Env where
  BACKEND_CORS_ORIGINS : Option (List String) := none
  OPENAPI_CLIENT_ID : Option String := none
  APP_CLIENT_ID : Option String := none
  TENANT_ID : Option String := none
  SCOPE_DESCRIPTION : Option String := none
deriving Repr, DecidableEq

/-- Modelled from the spec: `pydantic_settings.BaseSettings` loading
(`settings = Settings()` in `config.py`) — environment variables override
defaults; unspecified values use the field defaults declared in the class.
The defaults themselves are embedded from `config.py`. -/
def loadSettings (e : Env) : Settings :=
  { BACKEND_CORS_ORIGINS := e.BACKEND_CORS_ORIGINS.getD ["http://localhost:8000"]
    OPENAPI_CLIENT_ID := e.OPENAPI_CLIENT_ID.getD ""
    APP_CLIENT_ID := e.APP_CLIENT_ID.getD ""
    TENANT_ID := e.TENANT_ID.getD ""
    SCOPE_DESCRIPTION := e.SCOPE_DESCRIPTION.getD "user_impersonation" }

/-- An environment supplying no configuration value at all. -/
def emptyEnv : Env := {}

/-- A decoded bearer token as seen by the external validator: verification
outcomes of its signature, expiry, issuer and audience checks, its granted
scopes, and its decoded claims bag (`user.dict()` in the handler), kept as an
association list. -/
structure Token where
  signatureValid : Bool
  expired : Bool
  issuerOk : Bool
  audienceOk : Bool
  scopes : List String
  claims : List (String × String)
deriving Repr, DecidableEq

/-- Modelled from the spec: §4.2 — a token is valid when its signature
verifies against the cached keys, it is not expired, and its issuer and
audience match the tenant/client configuration. -/
def Token.valid (t : Token) : Bool :=
  t.signatureValid && !t.expired && t.issuerOk && t.audienceOk

/-- Outcome of the per-request auth check: decoded claims on success,
authentication failure (HTTP 401), or authorization failure (HTTP 403). -/
inductive AuthResult
  | ok (user : List (String × String))
  | unauthenticated
  | forbidden
deriving Repr, DecidableEq

/-- Modelled from the spec: §4.2 `authenticate(required_scope)` of the
external `fastapi_azure_auth` validator (`azure_scheme` in
`auth/azure_auth.py`, whose implementation is not among this repository's
sources).  A missing or unparseable bearer token is `none`.  Missing,
malformed, expired or signature-invalid tokens signal an authentication
failure (401); a valid token lacking the required scope signals an
authorization failure (403); otherwise the decoded claims are returned. -/
def authenticate (requiredScope : String) : Option Token → AuthResult
  | none => .unauthenticated
  | some t =>
      if t.valid then
        if requiredScope ∈ t.scopes then .ok t.claims else .forbidden
      else .unauthenticated

/-- The JSON bodies this application produces: `{"message": m}`,
`{"message": m, "user": claims}`, an error `{"detail": d}`, or empty. -/
inductive Body
  | msg (message : String)
  | msgUser (message : String) (user : List (String × String))
  | detail (detail : String)
  | empty
deriving Repr, DecidableEq

/-- An HTTP response: status code, headers and JSON body. -/
structure Response where
  status : Nat
  headers : List (String × String)
  body : Body
deriving Repr, DecidableEq

/-- Embeds `public_route` from `routers/public.py`: returns
`{"message": "Hello, this is a public endpoint."}`. -/
def public_route : Response :=
  ⟨200, [], .msg "Hello, this is a public endpoint."⟩

/-- Embeds `protected_route` from `routers/protected.py`: returns
`{"message": "You are authenticated!", "user": user.dict()}`.  The routing
layer only calls it after the auth check succeeds. -/
def protected_route (user : List (String × String)) : Response :=
  ⟨200, [], .msgUser "You are authenticated!" user⟩

/-- Modelled from the spec: §7(b) — authentication failure surfaced as 401
with a generic message. -/
def err401 : Response := ⟨401, [], .detail "Unauthorized"⟩

/-- Modelled from the spec: §7(c) — authorization failure surfaced as 403. -/
def err403 : Response := ⟨403, [], .detail "Forbidden"⟩

/-- Route lookup miss: the framework's standard 404. -/
def err404 : Response := ⟨404, [], .detail "Not Found"⟩

/-- Method not routed (e.g. OPTIONS with no CORS middleware): 405. -/
def err405 : Response := ⟨405, [], .detail "Method Not Allowed"⟩

/-- An HTTP request: method, path, arbitrary extra headers, and the parsed
bearer token of its Authorization header (`none` when the header is absent
or not a parseable bearer token). -/
structure Request where
  method : String
  path : String
  headers : List (String × String)
  token : Option Token
deriving Repr, DecidableEq

/-- Modelled from the spec: the FastAPI routing layer dispatching the two
registered routes of `main.py`.  On `/protected` the `Security(azure_scheme,
scopes=[settings.SCOPE_NAME])` dependency from `routers/protected.py` runs
first: its failure short-circuits with the 401/403 response and the handler
body never runs. -/
def handleRequest (s : Settings) (req : Request) : Response :=
  if req.method = "GET" then
    if req.path = "/" then public_route
    else if req.path = "/protected" then
      match authenticate s.SCOPE_NAME req.token with
      | AuthResult.ok user => protected_route user
      | AuthResult.unauthenticated => err401
      | AuthResult.forbidden => err403
    else err404
  else err404

/-- Embeds the `swagger_ui_init_oauth` wiring of `main.py`: the interactive
documentation's OAuth2 client id is `settings.OPENAPI_CLIENT_ID`. -/
def swaggerInitOAuthClientId (s : Settings) : String := s.OPENAPI_CLIENT_ID

/-- Embeds the `swagger_ui_init_oauth` wiring of `main.py`: the
documentation's requested scopes are `[settings.SCOPE_NAME]`. -/
def swaggerInitOAuthScopes (s : Settings) : List String := [s.SCOPE_NAME]

/-- Embeds the CORS wiring of `main.py`: the middleware is added only under
`if settings.BACKEND_CORS_ORIGINS:` — Python truthiness of a list, i.e. the
list is non-empty.  (`[str(origin) for origin in ...]` is the identity in
this string model.) -/
def corsEnabled (s : Settings) : Bool :=
  match s.BACKEND_CORS_ORIGINS with
  | [] => false
  | _ :: _ => true

/-- Modelled from the spec: the Starlette `CORSMiddleware` preflight
behaviour with the `main.py` arguments (allow-list of origins, credentials
allowed, all methods/headers allowed): a preflight whose Origin is in the
allow-list is answered echoing that origin in `Access-Control-Allow-Origin`;
one whose Origin is absent from the list is answered without that header. -/
def preflightResponse (allowOrigins : List String) (origin : String) : Response :=
  if origin ∈ allowOrigins then
    ⟨200, [("Access-Control-Allow-Origin", origin),
           ("Access-Control-Allow-Credentials", "true")], .empty⟩
  else
    ⟨400, [], .detail "Disallowed CORS origin"⟩

/-- A CORS preflight (OPTIONS) request against the assembled app: handled by
the middleware when it is installed, otherwise by the bare router, which has
no OPTIONS route (405, no CORS headers). -/
def handlePreflight (s : Settings) (origin : String) : Response :=
  if corsEnabled s then preflightResponse s.BACKEND_CORS_ORIGINS origin
  else err405

/-- The identity provider's published OpenID discovery data: signing keys
(and endpoints), fetched once at startup and cached. -/
structure OpenIDConfig where
  signingKeys : List String
deriving Repr, DecidableEq

/-- Modelled from the spec: `azure_lifespan` in `auth/azure_auth.py` awaits
`azure_scheme.openid_config.load_config()` once before yielding; an
exception from the fetch propagates out of the lifespan.  The returned pair
records how many times the fetch ran and its outcome. -/
def azure_lifespan (fetch : Except String OpenIDConfig) :
    Nat × Except String OpenIDConfig :=
  (1, fetch)

/-- A whole server run: how often the startup fetch was attempted, and
either the startup error (no request ever served) or the responses. -/
structure ServerRun where
  fetchCalls : Nat
  served : Except String (List Response)
deriving Repr

/-- Modelled from the spec: §4.5 — the application runs its lifespan startup
hook to completion before serving any request; a startup failure aborts the
process, so no request is served. -/
def runServer (s : Settings) (fetch : Except String OpenIDConfig)
    (reqs : List Request) : ServerRun :=
  match azure_lifespan fetch with
  | (n, Except.error e) => ⟨n, Except.error e⟩
  | (n, Except.ok _) => ⟨n, Except.ok (reqs.map (handleRequest s))⟩

/-- The process-wide state once READY: the settings fixed at startup and the
cached OpenID configuration. -/
structure ServerState where
  settings : Settings
  openidConfig : OpenIDConfig
deriving Repr, DecidableEq

/-- One request-handling step: the handlers of `routers/public.py` and
`routers/protected.py` compute a response and write no process state. -/
def step (st : ServerState) (req : Request) : Response × ServerState :=
  (handleRequest st.settings req, st)

/-- Serving a sequence of requests, threading the process state. -/
def serve (st : ServerState) : List Request → List Response × ServerState
  | [] => ([], st)
  | r :: rs =>
      ((step st r).1 :: (serve (step st r).2 rs).1, (serve (step st r).2 rs).2)

end FastApiAzure

namespace FastApiAzure

/-- C4: for all `APP_CLIENT_ID` values `C` and `SCOPE_DESCRIPTION` values `D`
(any `Settings`, so in particular when `C` or `D` is the empty string), the
computed `SCOPE_NAME` is `"api://" ++ C ++ "/" ++ D` and `SCOPES` is the
single-entry mapping `{SCOPE_NAME: D}`. -/
theorem scope_name_and_scopes_formula (s : Settings) :
    s.SCOPE_NAME = "api://" ++ s.APP_CLIENT_ID ++ "/" ++ s.SCOPE_DESCRIPTION ∧
    s.SCOPES = [(s.SCOPE_NAME, s.SCOPE_DESCRIPTION)] ∧
    s.SCOPES.length = 1 := by
  refine ⟨rfl, rfl, rfl⟩

/-- C7 counterexample: with nothing supplied in the environment, the loaded
`SCOPE_DESCRIPTION` is `"user_impersonation"`, not the empty string, and the
loaded `BACKEND_CORS_ORIGINS` is `["http://localhost:8000"]`, not empty —
so not every missing value falls back to an empty-string default. -/
theorem missing_scope_description_default_not_empty :
    (loadSettings emptyEnv).SCOPE_DESCRIPTION = "user_impersonation" ∧
    (loadSettings emptyEnv).SCOPE_DESCRIPTION ≠ "" ∧
    (loadSettings emptyEnv).BACKEND_CORS_ORIGINS = ["http://localhost:8000"] := by
  refine ⟨rfl, by decide, rfl⟩

/-- C7 amended: a configuration value not supplied via the environment falls
back to its declared default with no validation and no error path — the
empty string for each of `OPENAPI_CLIENT_ID`, `APP_CLIENT_ID` and
`TENANT_ID`, `"user_impersonation"` for `SCOPE_DESCRIPTION`, and
`["http://localhost:8000"]` for `BACKEND_CORS_ORIGINS`. -/
theorem missing_values_fall_back_to_defaults (e : Env)
    (h1 : e.OPENAPI_CLIENT_ID = none) (h2 : e.APP_CLIENT_ID = none)
    (h3 : e.TENANT_ID = none) (h4 : e.SCOPE_DESCRIPTION = none)
    (h5 : e.BACKEND_CORS_ORIGINS = none) :
    loadSettings e =
      { BACKEND_CORS_ORIGINS := ["http://localhost:8000"]
        OPENAPI_CLIENT_ID := ""
        APP_CLIENT_ID := ""
        TENANT_ID := ""
        SCOPE_DESCRIPTION := "user_impersonation" } := by
  simp [loadSettings, h1, h2, h3, h4, h5]

/-- Witness for C7 amended at the empty environment. -/
theorem missing_values_fall_back_to_defaults_witness :
    loadSettings emptyEnv =
      { BACKEND_CORS_ORIGINS := ["http://localhost:8000"]
        OPENAPI_CLIENT_ID := ""
        APP_CLIENT_ID := ""
        TENANT_ID := ""
        SCOPE_DESCRIPTION := "user_impersonation" } :=
  missing_values_fall_back_to_defaults emptyEnv rfl rfl rfl rfl rfl

/-- C1: every GET /protected carrying a validly-signed, non-expired bearer
token whose granted scopes include the configured `SCOPE_NAME` gets a 200
response whose body is `{"message": "You are authenticated!", "user": c}`
with `c` equal to the token's decoded claims. -/
theorem protected_ok_with_valid_token_and_scope (s : Settings) (t : Token)
    (hdrs : List (String × String))
    (hsig : t.signatureValid = true) (hexp : t.expired = false)
    (hiss : t.issuerOk = true) (haud : t.audienceOk = true)
    (hscope : s.SCOPE_NAME ∈ t.scopes) :
    handleRequest s ⟨"GET", "/protected", hdrs, some t⟩ =
      ⟨200, [], .msgUser "You are authenticated!" t.claims⟩ := by
  simp [handleRequest, authenticate, Token.valid, protected_route,
    hsig, hexp, hiss, haud, hscope]

/-- Witness for C1 at a concrete settings/token pair. -/
theorem protected_ok_with_valid_token_and_scope_witness :
    handleRequest { APP_CLIENT_ID := "abc", SCOPE_DESCRIPTION := "user_impersonation" }
      ⟨"GET", "/protected", [],
        some ⟨true, false, true, true, ["api://abc/user_impersonation"], [("sub", "alice")]⟩⟩ =
      ⟨200, [], .msgUser "You are authenticated!" [("sub", "alice")]⟩ :=
  protected_ok_with_valid_token_and_scope
    { APP_CLIENT_ID := "abc", SCOPE_DESCRIPTION := "user_impersonation" }
    ⟨true, false, true, true, ["api://abc/user_impersonation"], [("sub", "alice")]⟩
    [] rfl rfl rfl rfl (by simp [Settings.SCOPE_NAME])

/-- C2: a GET /protected whose bearer token is absent or unparseable
(`none`), badly signed, or expired is answered with the 401 response by the
routing layer, and the handler body never runs — the response differs from
`protected_route u` for every `u`. -/
theorem protected_unauthenticated_401 (s : Settings) (tok : Option Token)
    (hdrs : List (String × String))
    (hbad : tok = none ∨
      ∃ t, tok = some t ∧ (t.signatureValid = false ∨ t.expired = true)) :
    handleRequest s ⟨"GET", "/protected", hdrs, tok⟩ = err401 ∧
    ∀ u, handleRequest s ⟨"GET", "/protected", hdrs, tok⟩ ≠ protected_route u := by
  have hmain : handleRequest s ⟨"GET", "/protected", hdrs, tok⟩ = err401 := by
    rcases hbad with hnone | ⟨t, htok, hbadtok⟩
    · simp [handleRequest, hnone, authenticate]
    · subst htok
      have hvalid : t.valid = false := by
        rcases hbadtok with h | h <;> simp [Token.valid, h]
      simp [handleRequest, authenticate, hvalid]
  refine ⟨hmain, fun u => ?_⟩
  rw [hmain]
  intro hcontra
  have : (401 : Nat) = 200 := congrArg Response.status hcontra
  simp at this

/-- Witness for C2: no Authorization header (token absent) yields 401. -/
theorem protected_unauthenticated_401_witness :
    handleRequest {} ⟨"GET", "/protected", [], none⟩ = err401 ∧
    ∀ u, handleRequest {} ⟨"GET", "/protected", [], none⟩ ≠ protected_route u :=
  protected_unauthenticated_401 {} none [] (Or.inl rfl)

/-- C3: a GET /protected carrying a validly-signed, non-expired token whose
granted scopes do not include the configured `SCOPE_NAME` is answered with
403 (authorization failure), not 401. -/
theorem protected_missing_scope_403 (s : Settings) (t : Token)
    (hdrs : List (String × String))
    (hvalid : t.valid = true) (hscope : s.SCOPE_NAME ∉ t.scopes) :
    handleRequest s ⟨"GET", "/protected", hdrs, some t⟩ = err403 ∧
    (handleRequest s ⟨"GET", "/protected", hdrs, some t⟩).status = 403 ∧
    (handleRequest s ⟨"GET", "/protected", hdrs, some t⟩).status ≠ 401 := by
  have hmain : handleRequest s ⟨"GET", "/protected", hdrs, some t⟩ = err403 := by
    simp [handleRequest, authenticate, hvalid, hscope]
  exact ⟨hmain, by rw [hmain]; rfl, by rw [hmain]; simp [err403]⟩

/-- Witness for C3 at a concrete valid token lacking the scope. -/
theorem protected_missing_scope_403_witness :
    handleRequest {} ⟨"GET", "/protected", [],
      some ⟨true, false, true, true, ["some.other.scope"], []⟩⟩ = err403 ∧
    (handleRequest {} ⟨"GET", "/protected", [],
      some ⟨true, false, true, true, ["some.other.scope"], []⟩⟩).status = 403 ∧
    (handleRequest {} ⟨"GET", "/protected", [],
      some ⟨true, false, true, true, ["some.other.scope"], []⟩⟩).status ≠ 401 :=
  protected_missing_scope_403 {} ⟨true, false, true, true, ["some.other.scope"], []⟩
    [] rfl (by decide)

/-- C6: every GET / — whatever headers and token accompany it — receives 200
with exactly the body `{"message": "Hello, this is a public endpoint."}`. -/
theorem public_route_always_200 (s : Settings)
    (hdrs : List (String × String)) (tok : Option Token) :
    handleRequest s ⟨"GET", "/", hdrs, tok⟩ = public_route ∧
    public_route.status = 200 ∧
    public_route.body = .msg "Hello, this is a public endpoint." := by
  refine ⟨by simp [handleRequest], rfl, rfl⟩

/-- C5: if the startup fetch of the identity provider's OpenID discovery
document fails, the run ends with that error and no request is ever served;
if it succeeds, requests are served — and the fetch runs exactly once, as
part of startup, before any request. -/
theorem startup_fetch_fail_fast_and_once (s : Settings)
    (fetch : Except String OpenIDConfig) (reqs : List Request) :
    (runServer s fetch reqs).fetchCalls = 1 ∧
    (∀ e, fetch = Except.error e →
      (runServer s fetch reqs).served = Except.error e) ∧
    (∀ cfg, fetch = Except.ok cfg →
      (runServer s fetch reqs).served = Except.ok (reqs.map (handleRequest s))) := by
  cases fetch with
  | error e0 =>
      refine ⟨rfl, fun e h => ?_, fun cfg h => Except.noConfusion h⟩
      injection h with h1
      subst h1
      rfl
  | ok cfg0 =>
      exact ⟨rfl, fun e h => Except.noConfusion h, fun cfg _ => rfl⟩

/-- Witness for C5: a failing fetch yields the startup error, a succeeding
fetch serves the (empty) request list. -/
theorem startup_fetch_fail_fast_and_once_witness :
    (runServer {} (Except.error "metadata fetch failed") []).served =
      Except.error "metadata fetch failed" ∧
    (runServer {} (Except.ok ⟨["key1"]⟩) []).served = Except.ok [] :=
  ⟨(startup_fetch_fail_fast_and_once {} (Except.error "metadata fetch failed") []).2.1
      "metadata fetch failed" rfl,
   (startup_fetch_fail_fast_and_once {} (Except.ok ⟨["key1"]⟩) []).2.2 ⟨["key1"]⟩ rfl⟩

/-- C8: serving any sequence of requests leaves the process state — in
particular every `Settings` field and the computed `SCOPE_NAME`/`SCOPES` —
exactly as fixed at startup, and every response was computed from those
startup settings. -/
theorem settings_immutable_while_serving (st : ServerState) (reqs : List Request) :
    (serve st reqs).2 = st ∧
    (serve st reqs).2.settings = st.settings ∧
    (serve st reqs).2.settings.SCOPE_NAME = st.settings.SCOPE_NAME ∧
    (serve st reqs).2.settings.SCOPES = st.settings.SCOPES ∧
    (serve st reqs).1 = reqs.map (handleRequest st.settings) := by
  have h2 : ∀ rs : List Request, (serve st rs).2 = st := by
    intro rs
    induction rs with
    | nil => rfl
    | cons r rs ih => simpa [serve, step] using ih
  have h1 : ∀ rs : List Request, (serve st rs).1 = rs.map (handleRequest st.settings) := by
    intro rs
    induction rs with
    | nil => rfl
    | cons r rs ih => simp [serve, step, ih]
  exact ⟨h2 reqs, by rw [h2 reqs], by rw [h2 reqs], by rw [h2 reqs], h1 reqs⟩

/-- C9: a CORS preflight whose Origin is in the configured
`BACKEND_CORS_ORIGINS` allow-list is answered with an
`Access-Control-Allow-Origin` header echoing that origin; one whose Origin
is absent from the list is answered without that header (whether or not the
middleware is installed at all). -/
theorem cors_preflight_origin_allow_list (s : Settings) (origin : String) :
    (origin ∈ s.BACKEND_CORS_ORIGINS →
      ("Access-Control-Allow-Origin", origin) ∈ (handlePreflight s origin).headers) ∧
    (origin ∉ s.BACKEND_CORS_ORIGINS →
      ∀ v, ("Access-Control-Allow-Origin", v) ∉ (handlePreflight s origin).headers) := by
  constructor
  · intro h
    have hne : s.BACKEND_CORS_ORIGINS ≠ [] := List.ne_nil_of_mem h
    obtain ⟨a, l, hl⟩ := List.exists_cons_of_ne_nil hne
    rw [hl] at h
    simp [handlePreflight, corsEnabled, hl, preflightResponse, h]
  · intro h v
    cases hl : s.BACKEND_CORS_ORIGINS with
    | nil => simp [handlePreflight, corsEnabled, hl, err405]
    | cons a l =>
        rw [hl] at h
        simp [handlePreflight, corsEnabled, hl, preflightResponse, h]

/-- Witness for C9: under the default allow-list, the default local origin
is echoed and a foreign origin gets no `Access-Control-Allow-Origin`. -/
theorem cors_preflight_origin_allow_list_witness :
    ("Access-Control-Allow-Origin", "http://localhost:8000") ∈
      (handlePreflight {} "http://localhost:8000").headers ∧
    ∀ v, ("Access-Control-Allow-Origin", v) ∉
      (handlePreflight {} "http://evil.example").headers :=
  ⟨(cors_preflight_origin_allow_list {} "http://localhost:8000").1 (by decide),
   (cors_preflight_origin_allow_list {} "http://evil.example").2 (by decide)⟩

/-- C10: the outcome of any request does not depend on `OPENAPI_CLIENT_ID`:
two runs whose settings agree on every other field answer every request —
in particular GET /protected with any token — identically, since
`OPENAPI_CLIENT_ID` feeds only the Swagger UI OAuth2 wiring
(`swaggerInitOAuthClientId`) and never the auth scheme. -/
theorem openapi_client_id_noninterference (s₁ s₂ : Settings) (req : Request)
    (hApp : s₁.APP_CLIENT_ID = s₂.APP_CLIENT_ID)
    (hTen : s₁.TENANT_ID = s₂.TENANT_ID)
    (hDesc : s₁.SCOPE_DESCRIPTION = s₂.SCOPE_DESCRIPTION)
    (hCors : s₁.BACKEND_CORS_ORIGINS = s₂.BACKEND_CORS_ORIGINS) :
    handleRequest s₁ req = handleRequest s₂ req := by
  have hscope : s₁.SCOPE_NAME = s₂.SCOPE_NAME := by
    simp [Settings.SCOPE_NAME, hApp, hDesc]
  simp [handleRequest, hscope]

/-- Witness for C10 at two settings differing only in `OPENAPI_CLIENT_ID`. -/
theorem openapi_client_id_noninterference_witness :
    handleRequest { OPENAPI_CLIENT_ID := "docs-client-1" }
      ⟨"GET", "/protected", [], none⟩ =
    handleRequest { OPENAPI_CLIENT_ID := "docs-client-2" }
      ⟨"GET", "/protected", [], none⟩ :=
  openapi_client_id_noninterference
    { OPENAPI_CLIENT_ID := "docs-client-1" }
    { OPENAPI_CLIENT_ID := "docs-client-2" }
    ⟨"GET", "/protected", [], none⟩ rfl rfl rfl rfl

end FastApiAzure
